import Mathlib

/-!
# VRF key lifecycle commands (core/cmd/local_client_vrf.go)

A shallow embedding of the command layer that sits between the operator and
the VRF keystore.  Every collaborator that is not defined in the file (the
keystore, the file system, the JSON decoder, the key codec, the renderer, the
application factory) is a field of `Env` or `VRFKeyStore`; the commands
themselves are translated statement by statement.

The effects of a command are recorded in a `World`: the keystore state, the
file system state, the keystore methods invoked, the files written, the text
printed, the entries logged and the tables handed to the renderer.
-/

set_option autoImplicit false

namespace VRF

/-! ## Data model -/

/-- Go `error` values.  `New` stands for `errors.New` / `fmt.Errorf` values and
for errors made by collaborators, the two sentinels are the package-level
values of `store`, and `Wrap` is `errors.Wrap` / `errors.Wrapf`. -/
inductive Error where
  | New (msg : String)
  | MatchingVRFKeyError
  | AttemptToDeleteNonExistentKeyFromDB
  | Wrap (cause : Error) (msg : String)
  deriving DecidableEq, Repr

/-- The innermost error of a chain of `Wrap`s (`errors.Cause`). -/
def Error.Cause : Error → Error
  | .Wrap cause _ => cause.Cause
  | e => e

/-- A point in time (`time.Time`). -/
structure Time where
  unixNano : Int
  deriving DecidableEq, Repr

/-- A nullable time: `DeletedAt.Valid` and `DeletedAt.Time`. -/
structure NullTime where
  Time : Time
  Valid : Bool
  deriving DecidableEq, Repr

/-- The public key (`vrfkey.PublicKey`). -/
structure PublicKey where
  bytes : List Nat
  deriving DecidableEq, Repr

/-- The stored record (`vrfkey.EncryptedVRFKey`). -/
structure EncryptedVRFKey where
  PublicKey : PublicKey
  VRFKey : String
  CreatedAt : Time
  UpdatedAt : Time
  DeletedAt : NullTime
  deriving DecidableEq, Repr

structure VRFKeyPresenter where
  Compressed : String
  Uncompressed : String
  Hash : String
  CreatedAt : Option Time
  UpdatedAt : Option Time
  DeletedAt : Option Time
  deriving DecidableEq, Repr

abbrev VRFKeyPresenters := List VRFKeyPresenter

abbrev DialectName := String

structure Config where
  Dialect : DialectName
  deriving DecidableEq, Repr

/-- What the commands read from the `cli.Context`: `c.String("publicKey")`,
`c.String("file")`, `c.IsSet("file")` and `c.Bool("hard")`. -/
structure Context where
  publicKey : String
  file : String
  fileIsSet : Bool
  hard : Bool
  deriving DecidableEq, Repr

/-- A keystore method invocation. -/
inductive StoreCall where
  | CreateKey (password : String)
  | CreateWeakInMemoryEncryptedKeyXXXTestingOnly (password : String)
  | Import (keyjson : String) (password : String)
  | GetSpecificKey (k : PublicKey)
  | Delete (k : PublicKey)
  | Archive (k : PublicKey)
  | ListKeys
  deriving DecidableEq, Repr

/-- A value handed to the logger. -/
inductive LogValue where
  | text (s : String)
  | key (k : PublicKey)
  | hash (hex : String)
  deriving DecidableEq, Repr

/-- One `logger.Infow(msg, keysAndValues...)` call. -/
structure LogEntry where
  msg : String
  keysAndValues : List LogValue
  deriving DecidableEq, Repr

/-- The keystore object `app.GetStore().VRFKeyStore`: each method takes the
keystore state and returns its result with the next state. -/
structure VRFKeyStore (S : Type) where
  CreateKey : String → S → Except Error PublicKey × S
  CreateWeakInMemoryEncryptedKeyXXXTestingOnly : String → S → Except Error EncryptedVRFKey × S
  Import : String → String → S → Option Error × S
  GetSpecificKey : PublicKey → S → Except Error EncryptedVRFKey × S
  Delete : PublicKey → S → Option Error × S
  Archive : PublicKey → S → Option Error × S
  ListKeys : S → Except Error (List PublicKey) × S

/-- The collaborators of the commands, over a keystore state `S` and a file
system state `F`. -/
structure Env (S F : Type) where
  /-- Text of `getPassword(c)`. -/
  getPassword : Context → Except Error String
  /-- Answer of `confirmAction(c)`. -/
  confirmAction : Context → Bool
  /-- Outcome of `cli.AppFactory.NewApplication(cli.Config)`, as the keystore of the application. -/
  NewApplication : Config → Except Error (VRFKeyStore S)
  /-- Result of `cli.errorOut(err)`. -/
  errorOut : Option Error → Option Error
  /-- Result of `cli.Render(&presenters, title)`. -/
  Render : VRFKeyPresenters → String → Option Error
  /-- Value of `dialects.PostgresWithoutLock`. -/
  PostgresWithoutLock : DialectName
  /-- Result of `vrfkey.NewPublicKeyFromHex`. -/
  NewPublicKeyFromHex : String → Except Error PublicKey
  /-- Text of `key.String()`, the compressed form. -/
  PublicKeyString : PublicKey → String
  /-- Result of `key.StringUncompressed()`. -/
  StringUncompressed : PublicKey → Except Error String
  /-- Result of `key.Hash()`, as `hash.Hex()` of the returned hash and the error. -/
  Hash : PublicKey → String × Option Error
  /-- Text of `t.String()` for a time. -/
  TimeString : Time → String
  /-- Text of `err.Error()`. -/
  ErrorString : Error → String
  /-- The error of `os.Stat(path)`. -/
  Stat : F → String → Option Error
  /-- Answer of `os.IsNotExist(err)`. -/
  IsNotExist : Option Error → Bool
  /-- Result of `ioutil.ReadFile(path)`. -/
  ReadFile : F → String → Except Error String
  /-- Result of `key.WriteToDisk(path)` on a key pointer, with the next file system. -/
  WriteToDisk : Option EncryptedVRFKey → String → F → Option Error × F
  /-- Result of `json.Unmarshal(keyjson, &key)` for `key struct{ PublicKey string }`, as `key.PublicKey`. -/
  Unmarshal : String → Except Error String
  /-- Text of a key pointer under the verb `%#+v`. -/
  GoSyntaxText : Option EncryptedVRFKey → String

/-- The client's configuration and everything a command can change. -/
structure World (S F : Type) where
  Config : Config
  store : S
  fs : F
  calls : List StoreCall
  writes : List (Option EncryptedVRFKey × String)
  stdout : List String
  log : List LogEntry
  rendered : List (VRFKeyPresenters × String)

/-! ## Presenters -/

def VRFKeyPresenter.FriendlyCreatedAt (timeString : Time → String) (p : VRFKeyPresenter) : String :=
  match p.CreatedAt with
  | some t => timeString t
  | none => ""

def VRFKeyPresenter.FriendlyUpdatedAt (timeString : Time → String) (p : VRFKeyPresenter) : String :=
  match p.UpdatedAt with
  | some t => timeString t
  | none => ""

def VRFKeyPresenter.FriendlyDeletedAt (timeString : Time → String) (p : VRFKeyPresenter) : String :=
  match p.DeletedAt with
  | some t => timeString t
  | none => ""

def VRFKeyPresenter.ToRow (timeString : Time → String) (p : VRFKeyPresenter) : List String :=
  [ p.Compressed,
    p.Uncompressed,
    p.Hash,
    p.FriendlyCreatedAt timeString,
    p.FriendlyUpdatedAt timeString,
    p.FriendlyDeletedAt timeString ]

/-- The headers and rows that `(*VRFKeyPresenter).RenderTable` hands to `renderList`. -/
def VRFKeyPresenter.RenderTable (timeString : Time → String) (p : VRFKeyPresenter) :
    List String × List (List String) :=
  (["Compressed", "Uncompressed", "Hash", "Created", "Updated", "Deleted"], [p.ToRow timeString])

/-- The headers and rows that `VRFKeyPresenters.RenderTable` hands to `renderList`. -/
def VRFKeyPresenters.RenderTable (timeString : Time → String) (ps : VRFKeyPresenters) :
    List String × List (List String) :=
  (["Compressed", "Uncompressed", "Hash", "Created", "Updated", "Deleted"],
    ps.foldl (fun rows p => rows ++ [p.ToRow timeString]) [])

/-! ## Commands -/

variable {S F : Type}

def getPublicKey (env : Env S F) (c : Context) : Except Error PublicKey :=
  if c.publicKey = "" then
    .error (.New "must specify public key")
  else
    match env.NewPublicKeyFromHex c.publicKey with
    | .error err => .error (.Wrap err "failed to parse public key")
    | .ok publicKey => .ok publicKey

def noFileToOverwrite (env : Env S F) (fs : F) (path : String) : Bool :=
  env.IsNotExist (env.Stat fs path)

/-- The text printed by `CreateVRFKey` on success. -/
def createdKeypairText (key uncompressedKey hashStr : String) : String :=
  "Created keypair.\n\nCompressed public key (use this for interactions with the chainlink node):\n"
    ++ key
    ++ "\nUncompressed public key (use this to register key with the VRFCoordinator):\n"
    ++ uncompressedKey
    ++ "\nHash of public key (use this to request randomness from your consuming contract):\n"
    ++ hashStr
    ++ "\n\nThe following command will export the encrypted secret key from the db to <save_path>:\n\nchainlink local vrf export -f <save_path> -pk "
    ++ key ++ "\n"

def CreateVRFKey (env : Env S F) (c : Context) (w : World S F) : Option Error × World S F :=
  let w0 : World S F := { w with Config := { w.Config with Dialect := env.PostgresWithoutLock } }
  match env.getPassword c with
  | .error err => (some err, w0)
  | .ok password =>
    match env.NewApplication w0.Config with
    | .error err => (env.errorOut (some (.Wrap err "creating application")), w0)
    | .ok vrfKeyStore =>
      let r := vrfKeyStore.CreateKey password w0.store
      let w1 : World S F := { w0 with store := r.2, calls := w0.calls ++ [.CreateKey password] }
      match r.1 with
      | .error err => (some (.Wrap err "while creating new account"), w1)
      | .ok key =>
        match env.StringUncompressed key with
        | .error err => (some (.Wrap err "while creating new account"), w1)
        | .ok uncompressedKey =>
          let h := env.Hash key
          let hashStr :=
            match h.2 with
            | some err => "error while computing hash of public key: " ++ env.ErrorString err
            | none => h.1
          (none, { w1 with stdout := w1.stdout ++
            [createdKeypairText (env.PublicKeyString key) uncompressedKey hashStr] })

def CreateAndExportWeakVRFKey (env : Env S F) (c : Context) (w : World S F) :
    Option Error × World S F :=
  match env.getPassword c with
  | .error err => (some err, w)
  | .ok password =>
    match env.NewApplication w.Config with
    | .error err => (env.errorOut (some (.Wrap err "creating application")), w)
    | .ok vrfKeyStore =>
      let r := vrfKeyStore.CreateWeakInMemoryEncryptedKeyXXXTestingOnly password w.store
      let w1 : World S F := { w with
        store := r.2,
        calls := w.calls ++ [.CreateWeakInMemoryEncryptedKeyXXXTestingOnly password] }
      match r.1 with
      | .error err => (some (.Wrap err "while creating testing key"), w1)
      | .ok key =>
        if !c.fileIsSet || !noFileToOverwrite env w1.fs c.file then
          let errmsg := "must specify path to key file which does not already exist"
          (some (.New errmsg), { w1 with stdout := w1.stdout ++ [errmsg ++ "\n"] })
        else
          let w2 : World S F := { w1 with
            stdout := w1.stdout ++ ["Don't use this key for anything sensitive!\n"] }
          let d := env.WriteToDisk (some key) c.file w2.fs
          (d.1, { w2 with fs := d.2, writes := w2.writes ++ [(some key, c.file)] })

def getPasswordAndKeyFile (env : Env S F) (c : Context) (w : World S F) :
    Except Error (String × String) :=
  match env.getPassword c with
  | .error err => .error err
  | .ok password =>
    if c.file = "" then
      .error (.New "must specify key file")
    else
      let keypath := c.file
      match env.ReadFile w.fs keypath with
      | .error err => .error (.Wrap err ("failed to read file " ++ keypath))
      | .ok keyjson => .ok (password, keyjson)

/-- The guidance printed by `ImportVRFKey` when the key is already stored. -/
def deleteOldKeyText (publicKey : String) : String :=
  "If you want to import the new key anyway, delete the old key with the command\n\n    "
    ++ ("chainlink local delete -pk " ++ publicKey)
    ++ "\n\n(but maybe back it up first, with "
    ++ ("`chainlink local export -f <backup_path> -pk " ++ publicKey ++ "`")
    ++ ".)\n"

def ImportVRFKey (env : Env S F) (c : Context) (w : World S F) : Option Error × World S F :=
  match getPasswordAndKeyFile env c w with
  | .error err => (some err, w)
  | .ok (password, keyjson) =>
    match env.NewApplication w.Config with
    | .error err => (env.errorOut (some (.Wrap err "creating application")), w)
    | .ok vrfKeyStore =>
      let r := vrfKeyStore.Import keyjson password w.store
      let w1 : World S F := { w with store := r.2, calls := w.calls ++ [.Import keyjson password] }
      match r.1 with
      | some err =>
        if err = .MatchingVRFKeyError then
          let w2 : World S F := { w1 with
            stdout := w1.stdout ++ ["The database already has an entry for that public key.\n"] }
          match env.Unmarshal keyjson with
          | .error e =>
            (some (.Wrap e ("while extracting public key from " ++ keyjson)),
              { w2 with stdout := w2.stdout ++ ["could not extract public key from json input\n"] })
          | .ok publicKey =>
            (some (.Wrap err "while attempting to import key from CL"),
              { w2 with stdout := w2.stdout ++ [deleteOldKeyText publicKey] })
        else
          (some err, w1)
      | none => (none, w1)

/-- The key pointer and the error returned by `getKeys`, with the world after it. -/
def getKeys (env : Env S F) (c : Context) (w : World S F) :
    (Option EncryptedVRFKey × Option Error) × World S F :=
  match getPublicKey env c with
  | .error err => ((none, some err), w)
  | .ok publicKey =>
    match env.NewApplication w.Config with
    | .error err => ((none, env.errorOut (some (.Wrap err "creating application"))), w)
    | .ok vrfKeyStore =>
      let r := vrfKeyStore.GetSpecificKey publicKey w.store
      let w1 : World S F := { w with store := r.2, calls := w.calls ++ [.GetSpecificKey publicKey] }
      match r.1 with
      | .error err =>
        ((none, some (.Wrap err ("while retrieving keys with matching public key "
            ++ env.PublicKeyString publicKey))), w1)
      | .ok enckey => ((some enckey, none), w1)

def ExportVRFKey (env : Env S F) (c : Context) (w : World S F) : Option Error × World S F :=
  let g := getKeys env c w
  let encryptedKey := g.1.1
  let w1 := g.2
  match g.1.2 with
  | some err => (some err, w1)
  | none =>
    if c.file = "" then
      (some (.New "must specify file to export to"), w1)
    else
      let keypath := c.file
      match env.Stat w1.fs keypath with
      | none =>
        (some (.New ("refusing to overwrite existing file " ++ keypath
            ++ ". Please move it or change the save path")), w1)
      | some err =>
        if !env.IsNotExist (some err) then
          (some (.Wrap err ("while checking whether file " ++ keypath ++ " exists")), w1)
        else
          let d := env.WriteToDisk encryptedKey keypath w1.fs
          let w2 : World S F := { w1 with fs := d.2, writes := w1.writes ++ [(encryptedKey, keypath)] }
          match d.1 with
          | some err =>
            (some (.Wrap err ("could not save " ++ env.GoSyntaxText encryptedKey
                ++ " to " ++ keypath)), w2)
          | none => (none, w2)

def DeleteVRFKey (env : Env S F) (c : Context) (w : World S F) : Option Error × World S F :=
  match getPublicKey env c with
  | .error err => (some err, w)
  | .ok publicKey =>
    if !env.confirmAction c then
      (none, w)
    else
      match env.NewApplication w.Config with
      | .error err => (env.errorOut (some (.Wrap err "creating application")), w)
      | .ok vrfKeyStore =>
        let hardDelete := c.hard
        if hardDelete then
          let r := vrfKeyStore.Delete publicKey w.store
          let w1 : World S F := { w with store := r.2, calls := w.calls ++ [.Delete publicKey] }
          match r.1 with
          | some err =>
            if err = .AttemptToDeleteNonExistentKeyFromDB then
              (some err, { w1 with stdout := w1.stdout ++
                ["There is already no entry in the DB for " ++ env.PublicKeyString publicKey ++ "\n"] })
            else
              (some err, w1)
          | none => (none, w1)
        else
          let r := vrfKeyStore.Archive publicKey w.store
          let w1 : World S F := { w with store := r.2, calls := w.calls ++ [.Archive publicKey] }
          match r.1 with
          | some err =>
            if err = .AttemptToDeleteNonExistentKeyFromDB then
              (some err, { w1 with stdout := w1.stdout ++
                ["There is already no entry in the DB for " ++ env.PublicKeyString publicKey ++ "\n"] })
            else
              (some err, w1)
          | none => (none, w1)

/-- The keystore state after `GetSpecificKey` has been invoked on each key of
the list in turn, which is how the loop of `ListVRFKeys` drives the keystore. -/
def stateAfterLookups (vrfKeyStore : VRFKeyStore S) : List PublicKey → S → S
  | [], s => s
  | key :: rest, s => stateAfterLookups vrfKeyStore rest (vrfKeyStore.GetSpecificKey key s).2

/-- One pass of the `for _, key := range keys` loop of `ListVRFKeys`: the
presenter appended for `key` and the world after the pass. -/
def ListVRFKeys_pass (env : Env S F) (vrfKeyStore : VRFKeyStore S) (key : PublicKey)
    (w : World S F) : VRFKeyPresenter × World S F :=
  let u : String × World S F :=
    match env.StringUncompressed key with
    | .error err =>
      ("error while computing uncompressed representation: " ++ env.ErrorString err,
        { w with log := w.log ++ [⟨"keys", [.text ("while computing uncompressed representation of "
            ++ env.PublicKeyString key ++ ": " ++ env.ErrorString err)]⟩] })
    | .ok uncompressed => (uncompressed, w)
  let uncompressed := u.1
  let w1 := u.2
  let hash := env.Hash key
  let h : String × World S F :=
    match hash.2 with
    | some err =>
      ("error while computing hash of %+v: " ++ env.ErrorString err,
        { w1 with log := w1.log ++
            [⟨"keys", [.text "while computing hash of %+v: %s", .key key, .hash hash.1]⟩] })
    | none => (hash.1, w1)
  let hashStr := h.1
  let w2 := h.2
  let r := vrfKeyStore.GetSpecificKey key w2.store
  let w3 : World S F := { w2 with store := r.2, calls := w2.calls ++ [.GetSpecificKey key] }
  let t : Option Time × Option Time × Option Time :=
    match r.1 with
    | .ok specificKey =>
      (some specificKey.CreatedAt, some specificKey.CreatedAt,
        if specificKey.DeletedAt.Valid then some specificKey.DeletedAt.Time else none)
    | .error _ => (none, none, none)
  ({ Compressed := env.PublicKeyString key,
     Uncompressed := uncompressed,
     Hash := hashStr,
     CreatedAt := t.1,
     UpdatedAt := t.2.1,
     DeletedAt := t.2.2 }, w3)

/-- The `for _, key := range keys` loop of `ListVRFKeys`, from the presenters
appended so far. -/
def ListVRFKeys_loop (env : Env S F) (vrfKeyStore : VRFKeyStore S) :
    List PublicKey → VRFKeyPresenters → World S F → VRFKeyPresenters × World S F
  | [], presenters, w => (presenters, w)
  | key :: rest, presenters, w =>
    let p := ListVRFKeys_pass env vrfKeyStore key w
    ListVRFKeys_loop env vrfKeyStore rest (presenters ++ [p.1]) p.2

def ListVRFKeys (env : Env S F) (_c : Context) (w : World S F) : Option Error × World S F :=
  let w0 : World S F := { w with Config := { w.Config with Dialect := env.PostgresWithoutLock } }
  match env.NewApplication w0.Config with
  | .error err => (env.errorOut (some (.Wrap err "creating application")), w0)
  | .ok vrfKeyStore =>
    let r := vrfKeyStore.ListKeys w0.store
    let w1 : World S F := { w0 with store := r.2, calls := w0.calls ++ [.ListKeys] }
    match r.1 with
    | .error err => (some err, w1)
    | .ok keys =>
      let l := ListVRFKeys_loop env vrfKeyStore keys [] w1
      let presenters := l.1
      let w2 := l.2
      (env.errorOut (env.Render presenters "🔑 VRF Keys"),
        { w2 with rendered := w2.rendered ++ [(presenters, "🔑 VRF Keys")] })

/-! ## A small concrete instance

An in-memory keystore over a list of records and a file system over a list of
paths with their contents, used to evaluate the commands on concrete inputs. -/

/-- The key texts the concrete codec knows. -/
def demoKeyTexts : List (String × PublicKey) :=
  [("0x01", ⟨[1]⟩), ("0x02", ⟨[2]⟩), ("0x03", ⟨[3]⟩), ("0x04", ⟨[4]⟩)]

/-- The key files the concrete JSON decoder can read, with their PublicKey field. -/
def demoJson : List (String × String) :=
  [("\x7b\"PublicKey\":\"0x01\"\x7d", "0x01")]

def demoErrorString : Error → String
  | .New msg => msg
  | .MatchingVRFKeyError => "key with matching public key already stored in DB"
  | .AttemptToDeleteNonExistentKeyFromDB => "key is not present in DB"
  | .Wrap cause msg => msg ++ ": " ++ demoErrorString cause

/-- An in-memory keystore: keys are numbered in order of creation, a key file is
a duplicate when a stored record holds the same text, lookups see only the
records that are not archived, and the listing shows every record. -/
def demoStore : VRFKeyStore (List EncryptedVRFKey) where
  CreateKey password s :=
    (.ok ⟨[s.length + 1]⟩,
      s ++ [{ PublicKey := ⟨[s.length + 1]⟩, VRFKey := password, CreatedAt := ⟨300⟩,
              UpdatedAt := ⟨300⟩, DeletedAt := ⟨⟨0⟩, false⟩ }])
  CreateWeakInMemoryEncryptedKeyXXXTestingOnly password s :=
    (.ok { PublicKey := ⟨[0]⟩, VRFKey := password, CreatedAt := ⟨300⟩, UpdatedAt := ⟨300⟩,
           DeletedAt := ⟨⟨0⟩, false⟩ }, s)
  Import keyjson _password s :=
    if s.any (fun r => r.VRFKey == keyjson) then
      (some .MatchingVRFKeyError, s)
    else
      (none, s ++ [{ PublicKey := ⟨[s.length + 1]⟩, VRFKey := keyjson, CreatedAt := ⟨300⟩,
                     UpdatedAt := ⟨300⟩, DeletedAt := ⟨⟨0⟩, false⟩ }])
  GetSpecificKey k s :=
    match s.find? (fun r => r.PublicKey == k && !r.DeletedAt.Valid) with
    | some r => (.ok r, s)
    | none => (.error (.New "record not found"), s)
  Delete k s :=
    if s.any (fun r => r.PublicKey == k) then
      (none, s.filter (fun r => !(r.PublicKey == k)))
    else
      (some .AttemptToDeleteNonExistentKeyFromDB, s)
  Archive k s :=
    if s.any (fun r => r.PublicKey == k && !r.DeletedAt.Valid) then
      (none, s.map (fun r => if r.PublicKey == k then { r with DeletedAt := ⟨⟨400⟩, true⟩ } else r))
    else
      (some .AttemptToDeleteNonExistentKeyFromDB, s)
  ListKeys s := (.ok (s.map (fun r => r.PublicKey)), s)

/-- The concrete collaborators: the uncompressed form of key 2 and the hash of
key 3 cannot be derived. -/
def demoEnv (confirmed : Bool) : Env (List EncryptedVRFKey) (List (String × String)) where
  getPassword _ := .ok "pw"
  confirmAction _ := confirmed
  NewApplication _ := .ok demoStore
  errorOut e := e
  Render _ _ := none
  PostgresWithoutLock := "postgresWithoutLock"
  NewPublicKeyFromHex text :=
    match demoKeyTexts.lookup text with
    | some k => .ok k
    | none => .error (.New "invalid hex string")
  PublicKeyString k :=
    match demoKeyTexts.find? (fun p => p.2 == k) with
    | some p => p.1
    | none => "0x00"
  StringUncompressed k :=
    if k = ⟨[2]⟩ then .error (.New "point not on curve") else .ok "0x04aa"
  Hash k :=
    if k = ⟨[3]⟩ then ("0x0000", some (.New "hash failed")) else ("0xbeef", none)
  TimeString t := String.mk (Nat.toDigits 10 t.unixNano.toNat)
  ErrorString := demoErrorString
  Stat fs path :=
    if (fs.lookup path).isSome then none else some (.New "no such file or directory")
  IsNotExist e := decide (e = some (.New "no such file or directory"))
  ReadFile fs path :=
    match fs.lookup path with
    | some contents => .ok contents
    | none => .error (.New "no such file or directory")
  WriteToDisk key path fs :=
    match key with
    | some k => (none, fs ++ [(path, k.VRFKey)])
    | none => (some (.New "no key to write"), fs)
  Unmarshal keyjson :=
    match demoJson.lookup keyjson with
    | some publicKey => .ok publicKey
    | none => .error (.New "invalid character in key file")
  GoSyntaxText key :=
    match key with
    | some _ => "&vrfkey.EncryptedVRFKey"
    | none => "(*vrfkey.EncryptedVRFKey)(nil)"

/-- Key 1, updated after it was created. -/
def demoRecord1 : EncryptedVRFKey :=
  { PublicKey := ⟨[1]⟩, VRFKey := "\x7b\"PublicKey\":\"0x01\"\x7d", CreatedAt := ⟨100⟩,
    UpdatedAt := ⟨200⟩, DeletedAt := ⟨⟨0⟩, false⟩ }

/-- Key 2, stored from a key file that is not JSON. -/
def demoRecord2 : EncryptedVRFKey :=
  { PublicKey := ⟨[2]⟩, VRFKey := "not json", CreatedAt := ⟨110⟩,
    UpdatedAt := ⟨110⟩, DeletedAt := ⟨⟨0⟩, false⟩ }

/-- Key 3, archived. -/
def demoRecord3 : EncryptedVRFKey :=
  { PublicKey := ⟨[3]⟩, VRFKey := "secret3", CreatedAt := ⟨120⟩,
    UpdatedAt := ⟨130⟩, DeletedAt := ⟨⟨130⟩, true⟩ }

/-- A world with three records and three files. -/
def demoWorld : World (List EncryptedVRFKey) (List (String × String)) :=
  { Config := ⟨"postgres"⟩,
    store := [demoRecord1, demoRecord2, demoRecord3],
    fs := [("/tmp/out.json", "old contents"), ("/tmp/dup.json", "not json"),
           ("/tmp/key1.json", "\x7b\"PublicKey\":\"0x01\"\x7d")],
    calls := [], writes := [], stdout := [], log := [], rendered := [] }

/-- A world whose keystore holds key 1 only. -/
def demoWorldOneKey : World (List EncryptedVRFKey) (List (String × String)) :=
  { demoWorld with store := [demoRecord1] }

/-- A world whose keystore holds keys 1 and 2. -/
def demoWorldTwoKeys : World (List EncryptedVRFKey) (List (String × String)) :=
  { demoWorld with store := [demoRecord1, demoRecord2] }

/-- A world whose keystore is empty. -/
def demoWorldEmpty : World (List EncryptedVRFKey) (List (String × String)) :=
  { demoWorld with store := [] }

/-! ## Frame lemmas -/

theorem getKeys_fs (env : Env S F) (c : Context) (w : World S F) :
    (getKeys env c w).2.fs = w.fs ∧ (getKeys env c w).2.writes = w.writes := by
  unfold getKeys
  cases getPublicKey env c with
  | error err => exact ⟨rfl, rfl⟩
  | ok publicKey =>
    cases env.NewApplication w.Config with
    | error err => exact ⟨rfl, rfl⟩
    | ok ks =>
      cases hr : (ks.GetSpecificKey publicKey w.store).1 with
      | error err => simp [hr]
      | ok enckey => simp [hr]

theorem getPublicKey_ok (env : Env S F) (c : Context) (pk : PublicKey)
    (hne : c.publicKey ≠ "") (hpk : env.NewPublicKeyFromHex c.publicKey = .ok pk) :
    getPublicKey env c = .ok pk := by
  simp [getPublicKey, hne, hpk]

/-! ## Export -/

/-- C1: when a file already exists at the non-empty destination path (os.Stat
reports no error), ExportVRFKey returns an error, leaves the file system as it
was, records no write, and the file reads back as before. -/
theorem ExportVRFKey_existing_file_untouched (env : Env S F) (c : Context) (w : World S F)
    (hne : c.file ≠ "") (hex : env.Stat w.fs c.file = none) :
    (ExportVRFKey env c w).1.isSome = true
      ∧ (ExportVRFKey env c w).2.fs = w.fs
      ∧ (ExportVRFKey env c w).2.writes = w.writes
      ∧ env.ReadFile (ExportVRFKey env c w).2.fs c.file = env.ReadFile w.fs c.file := by
  have hfs := (getKeys_fs env c w).1
  have hwr := (getKeys_fs env c w).2
  have hst : env.Stat (getKeys env c w).2.fs c.file = none := by rw [hfs]; exact hex
  have key : (ExportVRFKey env c w).1.isSome = true ∧ (ExportVRFKey env c w).2 = (getKeys env c w).2 := by
    unfold ExportVRFKey
    cases hg : (getKeys env c w).1.2 with
    | some err => simp [hg]
    | none => simp [hg, hne, hst]
  refine ⟨key.1, ?_, ?_, ?_⟩
  · rw [key.2, hfs]
  · rw [key.2, hwr]
  · rw [key.2, hfs]

/-! ## Delete -/

/-- C3: for a well-formed public-key text and any value of the hard flag,
DeleteVRFKey with a declined confirmation returns no error and leaves the whole
world as it was: no keystore method is invoked and the keystore state is
unchanged. -/
theorem DeleteVRFKey_declined_is_noop (env : Env S F) (c : Context) (w : World S F)
    (pk : PublicKey) (hne : c.publicKey ≠ "")
    (hpk : env.NewPublicKeyFromHex c.publicKey = .ok pk)
    (hconf : env.confirmAction c = false) :
    DeleteVRFKey env c w = (none, w)
      ∧ (DeleteVRFKey env c w).2.calls = w.calls
      ∧ (DeleteVRFKey env c w).2.store = w.store := by
  have h : DeleteVRFKey env c w = (none, w) := by
    simp [DeleteVRFKey, getPublicKey_ok env c pk hne hpk, hconf]
  simp [h]

/-- C4: for a well-formed public-key text, a given confirmation and an
available keystore, DeleteVRFKey invokes exactly one keystore method on the
parsed key, Delete when hard is set and Archive otherwise, returns exactly
that method's result and leaves the keystore in the state that method
produced; so a missing record gives AttemptToDeleteNonExistentKeyFromDB for
both values of hard. -/
theorem DeleteVRFKey_confirmed_runs_one_operation (env : Env S F) (c : Context) (w : World S F)
    (pk : PublicKey) (ks : VRFKeyStore S) (hne : c.publicKey ≠ "")
    (hpk : env.NewPublicKeyFromHex c.publicKey = .ok pk)
    (hconf : env.confirmAction c = true)
    (happ : env.NewApplication w.Config = .ok ks) :
    (c.hard = true →
        (DeleteVRFKey env c w).1 = (ks.Delete pk w.store).1
          ∧ (DeleteVRFKey env c w).2.store = (ks.Delete pk w.store).2
          ∧ (DeleteVRFKey env c w).2.calls = w.calls ++ [.Delete pk])
      ∧ (c.hard = false →
        (DeleteVRFKey env c w).1 = (ks.Archive pk w.store).1
          ∧ (DeleteVRFKey env c w).2.store = (ks.Archive pk w.store).2
          ∧ (DeleteVRFKey env c w).2.calls = w.calls ++ [.Archive pk])
      ∧ ((if c.hard then (ks.Delete pk w.store).1 else (ks.Archive pk w.store).1)
            = some .AttemptToDeleteNonExistentKeyFromDB →
          (DeleteVRFKey env c w).1 = some .AttemptToDeleteNonExistentKeyFromDB) := by
  have hD : c.hard = true →
      (DeleteVRFKey env c w).1 = (ks.Delete pk w.store).1
        ∧ (DeleteVRFKey env c w).2.store = (ks.Delete pk w.store).2
        ∧ (DeleteVRFKey env c w).2.calls = w.calls ++ [.Delete pk] := by
    intro hh
    unfold DeleteVRFKey
    simp only [getPublicKey_ok env c pk hne hpk, hconf, happ, hh]
    cases hr : (ks.Delete pk w.store).1 with
    | none => simp
    | some err => by_cases he : err = .AttemptToDeleteNonExistentKeyFromDB <;> simp [he]
  have hA : c.hard = false →
      (DeleteVRFKey env c w).1 = (ks.Archive pk w.store).1
        ∧ (DeleteVRFKey env c w).2.store = (ks.Archive pk w.store).2
        ∧ (DeleteVRFKey env c w).2.calls = w.calls ++ [.Archive pk] := by
    intro hh
    unfold DeleteVRFKey
    simp only [getPublicKey_ok env c pk hne hpk, hconf, happ, hh]
    cases hr : (ks.Archive pk w.store).1 with
    | none => simp
    | some err => by_cases he : err = .AttemptToDeleteNonExistentKeyFromDB <;> simp [he]
  refine ⟨hD, hA, ?_⟩
  cases hh : c.hard with
  | true => intro h; rw [(hD hh).1]; simpa using h
  | false => intro h; rw [(hA hh).1]; simpa using h

/-! ## Weak keys -/

/-- C8: when no destination path is supplied, or the existence check of the
path does not report that it does not exist, CreateAndExportWeakVRFKey returns
an error, leaves the file system as it was, records no write, and invokes no
keystore method other than one
CreateWeakInMemoryEncryptedKeyXXXTestingOnly with the password read. -/
theorem CreateAndExportWeakVRFKey_no_destination (env : Env S F) (c : Context) (w : World S F)
    (hdest : c.fileIsSet = false ∨ noFileToOverwrite env w.fs c.file = false)
    (herr : ∀ e, (env.errorOut (some e)).isSome = true) :
    (CreateAndExportWeakVRFKey env c w).1.isSome = true
      ∧ (CreateAndExportWeakVRFKey env c w).2.fs = w.fs
      ∧ (CreateAndExportWeakVRFKey env c w).2.writes = w.writes
      ∧ ((CreateAndExportWeakVRFKey env c w).2.calls = w.calls
          ∨ ∃ password, env.getPassword c = .ok password
              ∧ (CreateAndExportWeakVRFKey env c w).2.calls
                  = w.calls ++ [.CreateWeakInMemoryEncryptedKeyXXXTestingOnly password]) := by
  have hcond : (!c.fileIsSet || !noFileToOverwrite env w.fs c.file) = true := by
    rcases hdest with h | h <;> simp [h]
  unfold CreateAndExportWeakVRFKey
  cases hp : env.getPassword c with
  | error err => simp
  | ok password =>
    cases ha : env.NewApplication w.Config with
    | error err => simp [herr]
    | ok ks =>
      cases hr : (ks.CreateWeakInMemoryEncryptedKeyXXXTestingOnly password w.store).1 with
      | error err => simp [hr]
      | ok key => simp [hr, hcond]

/-! ## List: one pass of the loop -/

theorem ListVRFKeys_pass_store (env : Env S F) (ks : VRFKeyStore S) (key : PublicKey)
    (w : World S F) :
    (ListVRFKeys_pass env ks key w).2.store = (ks.GetSpecificKey key w.store).2 := by
  unfold ListVRFKeys_pass
  cases hu : env.StringUncompressed key <;> cases hh : (env.Hash key).2 <;> simp [hu, hh]

theorem ListVRFKeys_pass_Compressed (env : Env S F) (ks : VRFKeyStore S) (key : PublicKey)
    (w : World S F) :
    (ListVRFKeys_pass env ks key w).1.Compressed = env.PublicKeyString key := rfl

theorem ListVRFKeys_pass_Uncompressed_error (env : Env S F) (ks : VRFKeyStore S)
    (key : PublicKey) (w : World S F) (e : Error)
    (h : env.StringUncompressed key = .error e) :
    (ListVRFKeys_pass env ks key w).1.Uncompressed
      = "error while computing uncompressed representation: " ++ env.ErrorString e := by
  simp [ListVRFKeys_pass, h]

theorem ListVRFKeys_pass_lookup_error (env : Env S F) (ks : VRFKeyStore S)
    (key : PublicKey) (w : World S F) (e : Error)
    (h : (ks.GetSpecificKey key w.store).1 = .error e) :
    (ListVRFKeys_pass env ks key w).1.CreatedAt = none
      ∧ (ListVRFKeys_pass env ks key w).1.UpdatedAt = none
      ∧ (ListVRFKeys_pass env ks key w).1.DeletedAt = none := by
  unfold ListVRFKeys_pass
  cases hu : env.StringUncompressed key <;> cases hh : (env.Hash key).2 <;> simp [hu, hh, h]

theorem ListVRFKeys_pass_lookup_ok (env : Env S F) (ks : VRFKeyStore S)
    (key : PublicKey) (w : World S F) (specificKey : EncryptedVRFKey)
    (h : (ks.GetSpecificKey key w.store).1 = .ok specificKey) :
    (ListVRFKeys_pass env ks key w).1.CreatedAt = some specificKey.CreatedAt
      ∧ (ListVRFKeys_pass env ks key w).1.UpdatedAt = some specificKey.CreatedAt
      ∧ (ListVRFKeys_pass env ks key w).1.DeletedAt
          = (if specificKey.DeletedAt.Valid then some specificKey.DeletedAt.Time else none) := by
  unfold ListVRFKeys_pass
  cases hu : env.StringUncompressed key <;> cases hh : (env.Hash key).2 <;> simp [hu, hh, h]

/-- The presenter of a pass depends on the world only through the keystore
state, and on the uncompressed-form derivation only at the key of the pass. -/
theorem ListVRFKeys_pass_congr (env : Env S F) (ks : VRFKeyStore S) (key : PublicKey)
    (w w2 : World S F) (f : PublicKey → Except Error String)
    (hs : w2.store = w.store) (hf : f key = env.StringUncompressed key) :
    (ListVRFKeys_pass { env with StringUncompressed := f } ks key w2).1
      = (ListVRFKeys_pass env ks key w).1 := by
  unfold ListVRFKeys_pass
  simp only [hf]
  cases hu : env.StringUncompressed key <;> cases hh : (env.Hash key).2 <;> simp [hu, hh, hs]

/-! ## List: the loop -/

theorem ListVRFKeys_loop_acc (env : Env S F) (ks : VRFKeyStore S) (keys : List PublicKey) :
    ∀ (acc : VRFKeyPresenters) (w : World S F),
      (ListVRFKeys_loop env ks keys acc w).1 = acc ++ (ListVRFKeys_loop env ks keys [] w).1
        ∧ (ListVRFKeys_loop env ks keys acc w).2 = (ListVRFKeys_loop env ks keys [] w).2 := by
  induction keys with
  | nil => intro acc w; simp [ListVRFKeys_loop]
  | cons key rest ih =>
    intro acc w
    simp only [ListVRFKeys_loop]
    have h1 := ih (acc ++ [(ListVRFKeys_pass env ks key w).1]) (ListVRFKeys_pass env ks key w).2
    have h2 := ih ([] ++ [(ListVRFKeys_pass env ks key w).1]) (ListVRFKeys_pass env ks key w).2
    rw [h1.1, h1.2, h2.1, h2.2]
    simp

theorem ListVRFKeys_loop_cons (env : Env S F) (ks : VRFKeyStore S) (key : PublicKey)
    (rest : List PublicKey) (w : World S F) :
    (ListVRFKeys_loop env ks (key :: rest) [] w).1
        = (ListVRFKeys_pass env ks key w).1
            :: (ListVRFKeys_loop env ks rest [] (ListVRFKeys_pass env ks key w).2).1
      ∧ (ListVRFKeys_loop env ks (key :: rest) [] w).2
        = (ListVRFKeys_loop env ks rest [] (ListVRFKeys_pass env ks key w).2).2 := by
  simp only [ListVRFKeys_loop]
  have h := ListVRFKeys_loop_acc env ks rest ([] ++ [(ListVRFKeys_pass env ks key w).1])
    (ListVRFKeys_pass env ks key w).2
  rw [h.1, h.2]
  simp

theorem ListVRFKeys_loop_length (env : Env S F) (ks : VRFKeyStore S) (keys : List PublicKey) :
    ∀ w : World S F, (ListVRFKeys_loop env ks keys [] w).1.length = keys.length := by
  induction keys with
  | nil => intro w; simp [ListVRFKeys_loop]
  | cons key rest ih => intro w; rw [(ListVRFKeys_loop_cons env ks key rest w).1]; simp [ih]

theorem ListVRFKeys_loop_Compressed (env : Env S F) (ks : VRFKeyStore S)
    (keys : List PublicKey) :
    ∀ w : World S F,
      (ListVRFKeys_loop env ks keys [] w).1.map (fun p => p.Compressed)
        = keys.map env.PublicKeyString := by
  induction keys with
  | nil => intro w; simp [ListVRFKeys_loop]
  | cons key rest ih =>
    intro w
    rw [(ListVRFKeys_loop_cons env ks key rest w).1]
    simp [ih, ListVRFKeys_pass_Compressed]

/-- The presenter at position `i` is the one built by the pass for the `i`-th
key, run in a world whose keystore state is the one after the lookups of the
keys before it. -/
theorem ListVRFKeys_loop_get (env : Env S F) (ks : VRFKeyStore S) (keys : List PublicKey) :
    ∀ (w : World S F) (i : Nat) (k : PublicKey), keys[i]? = some k →
      ∃ wi : World S F, wi.store = stateAfterLookups ks (keys.take i) w.store
        ∧ (ListVRFKeys_loop env ks keys [] w).1[i]? = some (ListVRFKeys_pass env ks k wi).1 := by
  induction keys with
  | nil => intro w i k h; simp at h
  | cons key rest ih =>
    intro w i k h
    rw [(ListVRFKeys_loop_cons env ks key rest w).1]
    cases i with
    | zero =>
      simp only [List.getElem?_cons_zero, Option.some.injEq] at h
      subst h
      exact ⟨w, by simp [stateAfterLookups], by simp⟩
    | succ j =>
      simp only [List.getElem?_cons_succ] at h
      obtain ⟨wi, hs, hg⟩ := ih (ListVRFKeys_pass env ks key w).2 j k h
      refine ⟨wi, ?_, ?_⟩
      · rw [hs, ListVRFKeys_pass_store]; simp [stateAfterLookups]
      · simpa using hg

theorem ListVRFKeys_pass_rendered (env : Env S F) (ks : VRFKeyStore S) (key : PublicKey)
    (w : World S F) :
    (ListVRFKeys_pass env ks key w).2.rendered = w.rendered := by
  unfold ListVRFKeys_pass
  cases hu : env.StringUncompressed key <;> cases hh : (env.Hash key).2 <;> simp [hu, hh]

theorem ListVRFKeys_loop_rendered (env : Env S F) (ks : VRFKeyStore S) (keys : List PublicKey) :
    ∀ (acc : VRFKeyPresenters) (w : World S F),
      (ListVRFKeys_loop env ks keys acc w).2.rendered = w.rendered := by
  induction keys with
  | nil => intro acc w; rfl
  | cons key rest ih =>
    intro acc w
    simp only [ListVRFKeys_loop]
    rw [ih, ListVRFKeys_pass_rendered]

/-- What ListVRFKeys hands to the renderer once the application and the key
list are available. -/
theorem ListVRFKeys_rendered (env : Env S F) (c : Context) (w : World S F)
    (ks : VRFKeyStore S) (keys : List PublicKey)
    (happ : env.NewApplication { Dialect := env.PostgresWithoutLock } = .ok ks)
    (hkeys : (ks.ListKeys w.store).1 = .ok keys) :
    ∃ w1 : World S F, w1.store = (ks.ListKeys w.store).2
      ∧ (ListVRFKeys env c w).2.rendered
          = w.rendered ++ [((ListVRFKeys_loop env ks keys [] w1).1, "🔑 VRF Keys")]
      ∧ (ListVRFKeys env c w).1
          = env.errorOut (env.Render (ListVRFKeys_loop env ks keys [] w1).1 "🔑 VRF Keys") := by
  refine ⟨{ w with Config := ⟨env.PostgresWithoutLock⟩, store := (ks.ListKeys w.store).2,
                   calls := w.calls ++ [.ListKeys] }, rfl, ?_, ?_⟩ <;>
    simp [ListVRFKeys, happ, hkeys, ListVRFKeys_loop_rendered]

/-! ## List -/

/-- C5: once the application is available and ListKeys returns N keys,
ListVRFKeys hands the renderer exactly N presenters in the order of the keys,
the i-th Compressed field being the compressed text of the i-th key, whatever
the derivations and lookups return; a key whose uncompressed-form derivation
fails has the diagnostic text in its Uncompressed field; and with any other
uncompressed-form derivation in its place, the presenter at every position
whose key derives the same under both is the same. -/
theorem ListVRFKeys_one_presenter_per_key (env : Env S F) (c : Context) (w : World S F)
    (ks : VRFKeyStore S) (keys : List PublicKey)
    (happ : env.NewApplication { Dialect := env.PostgresWithoutLock } = .ok ks)
    (hkeys : (ks.ListKeys w.store).1 = .ok keys) :
    ∃ ps : VRFKeyPresenters,
      (ListVRFKeys env c w).2.rendered = w.rendered ++ [(ps, "🔑 VRF Keys")]
      ∧ ps.length = keys.length
      ∧ ps.map (fun p => p.Compressed) = keys.map env.PublicKeyString
      ∧ (∀ (i : Nat) (k : PublicKey) (e : Error), keys[i]? = some k →
          env.StringUncompressed k = .error e →
          ∃ p, ps[i]? = some p ∧ p.Uncompressed
            = "error while computing uncompressed representation: " ++ env.ErrorString e)
      ∧ (∀ f : PublicKey → Except Error String, ∃ ps2 : VRFKeyPresenters,
          (ListVRFKeys { env with StringUncompressed := f } c w).2.rendered
              = w.rendered ++ [(ps2, "🔑 VRF Keys")]
            ∧ ps2.length = keys.length
            ∧ ∀ (i : Nat) (k : PublicKey), keys[i]? = some k →
                f k = env.StringUncompressed k → ps2[i]? = ps[i]?) := by
  obtain ⟨w1, hs1, hr, _⟩ := ListVRFKeys_rendered env c w ks keys happ hkeys
  refine ⟨_, hr, ListVRFKeys_loop_length env ks keys w1,
    ListVRFKeys_loop_Compressed env ks keys w1, ?_, ?_⟩
  · intro i k e hk he
    obtain ⟨wi, _, hg⟩ := ListVRFKeys_loop_get env ks keys w1 i k hk
    exact ⟨_, hg, ListVRFKeys_pass_Uncompressed_error env ks k wi e he⟩
  · intro f
    obtain ⟨v1, ht1, hr2, _⟩ :=
      ListVRFKeys_rendered { env with StringUncompressed := f } c w ks keys happ hkeys
    refine ⟨_, hr2, ListVRFKeys_loop_length _ ks keys v1, ?_⟩
    intro i k hk hf
    obtain ⟨wi, hsi, hg⟩ := ListVRFKeys_loop_get env ks keys w1 i k hk
    obtain ⟨vi, hti, hg2⟩ :=
      ListVRFKeys_loop_get { env with StringUncompressed := f } ks keys v1 i k hk
    rw [hg, hg2]
    have hst : vi.store = wi.store := by rw [hti, hsi, ht1, hs1]
    rw [ListVRFKeys_pass_congr env ks k wi vi f hst hf]

/-- C10: once the application is available and ListKeys returns the keys, the
presenter of every listed key whose GetSpecificKey lookup fails (in the
keystore state left by the lookups of the keys before it) has no CreatedAt,
UpdatedAt or DeletedAt, and its row is the six columns Compressed,
Uncompressed, Hash and three empty strings, under the headers Compressed,
Uncompressed, Hash, Created, Updated, Deleted. -/
theorem ListVRFKeys_failed_lookup_blank_timestamps (env : Env S F) (c : Context)
    (w : World S F) (ks : VRFKeyStore S) (keys : List PublicKey)
    (happ : env.NewApplication { Dialect := env.PostgresWithoutLock } = .ok ks)
    (hkeys : (ks.ListKeys w.store).1 = .ok keys) :
    ∃ ps : VRFKeyPresenters,
      (ListVRFKeys env c w).2.rendered = w.rendered ++ [(ps, "🔑 VRF Keys")]
      ∧ ∀ (i : Nat) (k : PublicKey) (e : Error), keys[i]? = some k →
          (ks.GetSpecificKey k
              (stateAfterLookups ks (keys.take i) (ks.ListKeys w.store).2)).1 = .error e →
          ∃ p, ps[i]? = some p
            ∧ p.CreatedAt = none ∧ p.UpdatedAt = none ∧ p.DeletedAt = none
            ∧ p.ToRow env.TimeString = [p.Compressed, p.Uncompressed, p.Hash, "", "", ""]
            ∧ p.RenderTable env.TimeString
                = (["Compressed", "Uncompressed", "Hash", "Created", "Updated", "Deleted"],
                    [[p.Compressed, p.Uncompressed, p.Hash, "", "", ""]]) := by
  obtain ⟨w1, hs1, hr, _⟩ := ListVRFKeys_rendered env c w ks keys happ hkeys
  refine ⟨_, hr, ?_⟩
  intro i k e hk he
  obtain ⟨wi, hsi, hg⟩ := ListVRFKeys_loop_get env ks keys w1 i k hk
  rw [← hs1, ← hsi] at he
  obtain ⟨h1, h2, h3⟩ := ListVRFKeys_pass_lookup_error env ks k wi e he
  refine ⟨_, hg, h1, h2, h3, ?_, ?_⟩
  · simp [VRFKeyPresenter.ToRow, VRFKeyPresenter.FriendlyCreatedAt,
      VRFKeyPresenter.FriendlyUpdatedAt, VRFKeyPresenter.FriendlyDeletedAt, h1, h2, h3]
  · simp [VRFKeyPresenter.RenderTable, VRFKeyPresenter.ToRow,
      VRFKeyPresenter.FriendlyCreatedAt, VRFKeyPresenter.FriendlyUpdatedAt,
      VRFKeyPresenter.FriendlyDeletedAt, h1, h2, h3]

/-- C9: on a keystore holding key 1 with CreatedAt 100 and UpdatedAt 200, whose
lookup succeeds, ListVRFKeys renders a presenter whose UpdatedAt is 100, the
record's CreatedAt, so the Updated column repeats the Created column. -/
theorem ListVRFKeys_UpdatedAt_shows_CreatedAt :
    (demoStore.ListKeys demoWorldOneKey.store).1 = .ok [⟨[1]⟩]
      ∧ (demoStore.GetSpecificKey ⟨[1]⟩ demoWorldOneKey.store).1 = .ok demoRecord1
      ∧ demoRecord1.CreatedAt = ⟨100⟩
      ∧ demoRecord1.UpdatedAt = ⟨200⟩
      ∧ (ListVRFKeys (demoEnv true) ⟨"", "", false, false⟩ demoWorldOneKey).2.rendered
          = [([{ Compressed := "0x01", Uncompressed := "0x04aa", Hash := "0xbeef",
                 CreatedAt := some ⟨100⟩, UpdatedAt := some ⟨100⟩, DeletedAt := none }],
              "🔑 VRF Keys")]
      ∧ VRFKeyPresenter.ToRow (demoEnv true).TimeString
          { Compressed := "0x01", Uncompressed := "0x04aa", Hash := "0xbeef",
            CreatedAt := some ⟨100⟩, UpdatedAt := some ⟨100⟩, DeletedAt := none }
          = ["0x01", "0x04aa", "0xbeef", "100", "100", ""] :=
  ⟨rfl, rfl, rfl, rfl, by decide, by decide⟩

/-! ## Export: order of the checks -/

/-- C7 (as the code has it): ExportVRFKey looks the key up before it checks the
destination path.  For a well-formed public-key text and an available
keystore, a failed lookup makes Export return the lookup error wrapped,
whatever the destination path is; when the lookup succeeds, an empty path
gives the error to specify a file and a path at which a file exists gives
the refusal to overwrite it. -/
theorem ExportVRFKey_lookup_precedes_path_checks (env : Env S F) (c : Context)
    (w : World S F) (pk : PublicKey) (ks : VRFKeyStore S) (hne : c.publicKey ≠ "")
    (hpk : env.NewPublicKeyFromHex c.publicKey = .ok pk)
    (happ : env.NewApplication w.Config = .ok ks) :
    (∀ e, (ks.GetSpecificKey pk w.store).1 = .error e →
        (ExportVRFKey env c w).1
          = some (.Wrap e ("while retrieving keys with matching public key "
              ++ env.PublicKeyString pk)))
      ∧ (∀ enckey, (ks.GetSpecificKey pk w.store).1 = .ok enckey →
          (c.file = "" →
            (ExportVRFKey env c w).1 = some (.New "must specify file to export to"))
          ∧ (c.file ≠ "" → env.Stat w.fs c.file = none →
            (ExportVRFKey env c w).1
              = some (.New ("refusing to overwrite existing file " ++ c.file
                  ++ ". Please move it or change the save path")))) := by
  refine ⟨?_, ?_⟩
  · intro e he
    simp [ExportVRFKey, getKeys, getPublicKey_ok env c pk hne hpk, happ, he]
  · intro enckey hk
    refine ⟨?_, ?_⟩
    · intro hf
      simp [ExportVRFKey, getKeys, getPublicKey_ok env c pk hne hpk, happ, hk, hf]
    · intro hf hst
      simp [ExportVRFKey, getKeys, getPublicKey_ok env c pk hne hpk, happ, hk, hf, hst]

/-- C7 fails as stated: key 4 is well formed and has no record, and Export
returns the wrapped lookup error both with an empty destination path and with
a path at which a file exists, not the path errors. -/
theorem ExportVRFKey_missing_key_reports_lookup_error :
    (demoEnv true).NewPublicKeyFromHex "0x04" = .ok ⟨[4]⟩
      ∧ (demoStore.GetSpecificKey ⟨[4]⟩ demoWorld.store).1 = .error (.New "record not found")
      ∧ (demoEnv true).Stat demoWorld.fs "/tmp/out.json" = none
      ∧ (ExportVRFKey (demoEnv true) ⟨"0x04", "", false, false⟩ demoWorld).1
          = some (.Wrap (.New "record not found")
              "while retrieving keys with matching public key 0x04")
      ∧ (ExportVRFKey (demoEnv true) ⟨"0x04", "", false, false⟩ demoWorld).1
          ≠ some (.New "must specify file to export to")
      ∧ (ExportVRFKey (demoEnv true) ⟨"0x04", "/tmp/out.json", true, false⟩ demoWorld).1
          = some (.Wrap (.New "record not found")
              "while retrieving keys with matching public key 0x04")
      ∧ (ExportVRFKey (demoEnv true) ⟨"0x04", "/tmp/out.json", true, false⟩ demoWorld).1
          ≠ some (.New ("refusing to overwrite existing file /tmp/out.json"
              ++ ". Please move it or change the save path")) :=
  ⟨rfl, rfl, by decide, by decide, by decide, by decide, by decide⟩

/-! ## Import -/

/-- C2 (as the code has it): when the password and the key file are read, the
keystore is available and its Import fails with MatchingVRFKeyError,
ImportVRFKey returns an error; if the public key can be extracted from the
input, the cause of that error is the original MatchingVRFKeyError; if the
extraction fails, the error returned is the extraction error wrapped. -/
theorem ImportVRFKey_duplicate_key (env : Env S F) (c : Context) (w : World S F)
    (password keyjson : String) (ks : VRFKeyStore S)
    (hpw : env.getPassword c = .ok password) (hfile : c.file ≠ "")
    (hread : env.ReadFile w.fs c.file = .ok keyjson)
    (happ : env.NewApplication w.Config = .ok ks)
    (hdup : (ks.Import keyjson password w.store).1 = some .MatchingVRFKeyError) :
    (ImportVRFKey env c w).1.isSome = true
      ∧ (∀ publicKey, env.Unmarshal keyjson = .ok publicKey →
          (ImportVRFKey env c w).1
              = some (.Wrap .MatchingVRFKeyError "while attempting to import key from CL")
            ∧ ∃ e, (ImportVRFKey env c w).1 = some e ∧ e.Cause = .MatchingVRFKeyError)
      ∧ (∀ e, env.Unmarshal keyjson = .error e →
          (ImportVRFKey env c w).1
            = some (.Wrap e ("while extracting public key from " ++ keyjson))) := by
  have hin : getPasswordAndKeyFile env c w = .ok (password, keyjson) := by
    simp [getPasswordAndKeyFile, hpw, hfile, hread]
  have hok : ∀ publicKey, env.Unmarshal keyjson = .ok publicKey →
      (ImportVRFKey env c w).1
        = some (.Wrap .MatchingVRFKeyError "while attempting to import key from CL") := by
    intro publicKey hu
    simp [ImportVRFKey, hin, happ, hdup, hu]
  have herr : ∀ e, env.Unmarshal keyjson = .error e →
      (ImportVRFKey env c w).1
        = some (.Wrap e ("while extracting public key from " ++ keyjson)) := by
    intro e hu
    simp [ImportVRFKey, hin, happ, hdup, hu]
  refine ⟨?_, ?_, herr⟩
  · cases hu : env.Unmarshal keyjson with
    | error e => rw [herr e hu]; rfl
    | ok publicKey => rw [hok publicKey hu]; rfl
  · intro publicKey hu
    exact ⟨hok publicKey hu, _, hok publicKey hu, rfl⟩

/-- C2 fails as stated: the keystore reports MatchingVRFKeyError for the key
file /tmp/dup.json, whose text is not JSON, and ImportVRFKey returns the
wrapped extraction error, whose cause is not MatchingVRFKeyError. -/
theorem ImportVRFKey_extraction_error_replaces_duplicate :
    (demoEnv true).ReadFile demoWorld.fs "/tmp/dup.json" = .ok "not json"
      ∧ (demoStore.Import "not json" "pw" demoWorld.store).1 = some .MatchingVRFKeyError
      ∧ (demoEnv true).Unmarshal "not json" = .error (.New "invalid character in key file")
      ∧ (ImportVRFKey (demoEnv true) ⟨"", "/tmp/dup.json", true, false⟩ demoWorld).1
          = some (.Wrap (.New "invalid character in key file")
              "while extracting public key from not json")
      ∧ ¬ ∃ e, (ImportVRFKey (demoEnv true) ⟨"", "/tmp/dup.json", true, false⟩ demoWorld).1
            = some e ∧ e.Cause = .MatchingVRFKeyError := by
  have h : (ImportVRFKey (demoEnv true) ⟨"", "/tmp/dup.json", true, false⟩ demoWorld).1
      = some (.Wrap (.New "invalid character in key file")
          "while extracting public key from not json") := by decide
  refine ⟨rfl, by decide, rfl, h, ?_⟩
  rintro ⟨e, he, hc⟩
  rw [h] at he
  cases he
  simp [Error.Cause] at hc

/-! ## Create -/

/-- C6 (as the code has it): when the password is read, the keystore is
available and its CreateKey succeeds, CreateVRFKey returns no error whenever
the uncompressed form of the new key derives, printing the hash or, if the
hash derivation fails, the diagnostic text in its place; if the uncompressed
form does not derive, CreateVRFKey returns that error wrapped. -/
theorem CreateVRFKey_after_create (env : Env S F) (c : Context) (w : World S F)
    (password : String) (ks : VRFKeyStore S) (key : PublicKey)
    (hpw : env.getPassword c = .ok password)
    (happ : env.NewApplication { Dialect := env.PostgresWithoutLock } = .ok ks)
    (hcreate : (ks.CreateKey password w.store).1 = .ok key) :
    (∀ uncompressedKey, env.StringUncompressed key = .ok uncompressedKey →
        (CreateVRFKey env c w).1 = none
          ∧ (∀ err, (env.Hash key).2 = some err →
              (CreateVRFKey env c w).2.stdout = w.stdout ++
                [createdKeypairText (env.PublicKeyString key) uncompressedKey
                  ("error while computing hash of public key: " ++ env.ErrorString err)])
          ∧ ((env.Hash key).2 = none →
              (CreateVRFKey env c w).2.stdout = w.stdout ++
                [createdKeypairText (env.PublicKeyString key) uncompressedKey (env.Hash key).1]))
      ∧ (∀ e, env.StringUncompressed key = .error e →
          (CreateVRFKey env c w).1 = some (.Wrap e "while creating new account")) := by
  refine ⟨?_, ?_⟩
  · intro uncompressedKey hu
    refine ⟨?_, ?_, ?_⟩
    · simp [CreateVRFKey, hpw, happ, hcreate, hu]
    · intro err hh
      simp [CreateVRFKey, hpw, happ, hcreate, hu, hh]
    · intro hh
      simp [CreateVRFKey, hpw, happ, hcreate, hu, hh]
  · intro e hu
    simp [CreateVRFKey, hpw, happ, hcreate, hu]

/-- C6 fails as stated: on a keystore holding key 1, CreateKey succeeds with
key 2, whose uncompressed form does not derive, and CreateVRFKey returns an
error. -/
theorem CreateVRFKey_uncompressed_failure_is_an_error :
    (demoStore.CreateKey "pw" demoWorldOneKey.store).1 = .ok ⟨[2]⟩
      ∧ (demoEnv true).StringUncompressed ⟨[2]⟩ = .error (.New "point not on curve")
      ∧ (CreateVRFKey (demoEnv true) ⟨"", "", false, false⟩ demoWorldOneKey).1
          = some (.Wrap (.New "point not on curve") "while creating new account")
      ∧ (CreateVRFKey (demoEnv true) ⟨"", "", false, false⟩ demoWorldOneKey).1 ≠ none :=
  ⟨rfl, rfl, by decide, by decide⟩

/-! ## Evaluations on the concrete instance -/

/-- Export of key 1 to /tmp/out.json, where a file exists: an error, and the file system is as before. -/
theorem ExportVRFKey_existing_file_untouched_witness :
    "/tmp/out.json" ≠ ""
      ∧ (demoEnv true).Stat demoWorld.fs "/tmp/out.json" = none
      ∧ (ExportVRFKey (demoEnv true) ⟨"0x01", "/tmp/out.json", true, false⟩ demoWorld).1.isSome
          = true
      ∧ (ExportVRFKey (demoEnv true) ⟨"0x01", "/tmp/out.json", true, false⟩ demoWorld).2.fs
          = demoWorld.fs
      ∧ (ExportVRFKey (demoEnv true) ⟨"0x01", "/tmp/out.json", true, false⟩ demoWorld).2.writes
          = demoWorld.writes
      ∧ (demoEnv true).ReadFile
            (ExportVRFKey (demoEnv true) ⟨"0x01", "/tmp/out.json", true, false⟩ demoWorld).2.fs
            "/tmp/out.json"
          = (demoEnv true).ReadFile demoWorld.fs "/tmp/out.json" :=
  ⟨by decide, by decide,
    ExportVRFKey_existing_file_untouched (demoEnv true) ⟨"0x01", "/tmp/out.json", true, false⟩
      demoWorld (by decide) (by decide)⟩

/-- A declined hard delete of key 1 returns no error and leaves the world as it was. -/
theorem DeleteVRFKey_declined_is_noop_witness :
    "0x01" ≠ ""
      ∧ (demoEnv false).NewPublicKeyFromHex "0x01" = .ok ⟨[1]⟩
      ∧ (demoEnv false).confirmAction ⟨"0x01", "", false, true⟩ = false
      ∧ DeleteVRFKey (demoEnv false) ⟨"0x01", "", false, true⟩ demoWorld = (none, demoWorld)
      ∧ (DeleteVRFKey (demoEnv false) ⟨"0x01", "", false, true⟩ demoWorld).2.calls
          = demoWorld.calls
      ∧ (DeleteVRFKey (demoEnv false) ⟨"0x01", "", false, true⟩ demoWorld).2.store
          = demoWorld.store :=
  ⟨by decide, rfl, rfl,
    DeleteVRFKey_declined_is_noop (demoEnv false) ⟨"0x01", "", false, true⟩ demoWorld ⟨[1]⟩
      (by decide) rfl rfl⟩

/-- A confirmed hard delete of key 4, which has no record: one Delete call, whose error is returned. -/
theorem DeleteVRFKey_confirmed_runs_one_operation_witness :
    "0x04" ≠ ""
      ∧ (demoEnv true).NewPublicKeyFromHex "0x04" = .ok ⟨[4]⟩
      ∧ (demoEnv true).confirmAction ⟨"0x04", "", false, true⟩ = true
      ∧ (demoEnv true).NewApplication demoWorld.Config = .ok demoStore
      ∧ (DeleteVRFKey (demoEnv true) ⟨"0x04", "", false, true⟩ demoWorld).1
          = some .AttemptToDeleteNonExistentKeyFromDB
      ∧ (DeleteVRFKey (demoEnv true) ⟨"0x04", "", false, true⟩ demoWorld).2.calls
          = demoWorld.calls ++ [.Delete ⟨[4]⟩] :=
  ⟨by decide, rfl, rfl, rfl,
    (DeleteVRFKey_confirmed_runs_one_operation (demoEnv true) ⟨"0x04", "", false, true⟩
      demoWorld ⟨[4]⟩ demoStore (by decide) rfl rfl rfl).2.2 (by decide),
    ((DeleteVRFKey_confirmed_runs_one_operation (demoEnv true) ⟨"0x04", "", false, true⟩
      demoWorld ⟨[4]⟩ demoStore (by decide) rfl rfl rfl).1 rfl).2.2⟩

/-- A weak key requested without the file flag: an error, and nothing is written. -/
theorem CreateAndExportWeakVRFKey_no_destination_witness :
    ((⟨"", "", false, false⟩ : Context).fileIsSet = false
        ∨ noFileToOverwrite (demoEnv true) demoWorld.fs "" = false)
      ∧ (∀ e, ((demoEnv true).errorOut (some e)).isSome = true)
      ∧ (CreateAndExportWeakVRFKey (demoEnv true) ⟨"", "", false, false⟩ demoWorld).1.isSome
          = true
      ∧ (CreateAndExportWeakVRFKey (demoEnv true) ⟨"", "", false, false⟩ demoWorld).2.fs
          = demoWorld.fs
      ∧ (CreateAndExportWeakVRFKey (demoEnv true) ⟨"", "", false, false⟩ demoWorld).2.writes
          = demoWorld.writes :=
  ⟨Or.inl rfl, fun _ => rfl,
    (CreateAndExportWeakVRFKey_no_destination (demoEnv true) ⟨"", "", false, false⟩ demoWorld
      (Or.inl rfl) (fun _ => rfl)).1,
    (CreateAndExportWeakVRFKey_no_destination (demoEnv true) ⟨"", "", false, false⟩ demoWorld
      (Or.inl rfl) (fun _ => rfl)).2.1,
    (CreateAndExportWeakVRFKey_no_destination (demoEnv true) ⟨"", "", false, false⟩ demoWorld
      (Or.inl rfl) (fun _ => rfl)).2.2.1⟩

/-- Listing three keys, the second of which has no uncompressed form: three presenters in order, the second with the diagnostic text. -/
theorem ListVRFKeys_one_presenter_per_key_witness :
    (demoEnv true).NewApplication { Dialect := (demoEnv true).PostgresWithoutLock }
        = .ok demoStore
      ∧ (demoStore.ListKeys demoWorld.store).1 = .ok [⟨[1]⟩, ⟨[2]⟩, ⟨[3]⟩]
      ∧ (demoEnv true).StringUncompressed ⟨[2]⟩ = .error (.New "point not on curve")
      ∧ ∃ ps : VRFKeyPresenters,
          (ListVRFKeys (demoEnv true) ⟨"", "", false, false⟩ demoWorld).2.rendered
              = demoWorld.rendered ++ [(ps, "🔑 VRF Keys")]
            ∧ ps.length = 3
            ∧ ps.map (fun p => p.Compressed) = ["0x01", "0x02", "0x03"]
            ∧ ∃ p, ps[1]? = some p ∧ p.Uncompressed
                = "error while computing uncompressed representation: point not on curve" :=
  ⟨rfl, rfl, rfl,
    (ListVRFKeys_one_presenter_per_key (demoEnv true) ⟨"", "", false, false⟩ demoWorld
      demoStore [⟨[1]⟩, ⟨[2]⟩, ⟨[3]⟩] rfl rfl).imp
      (fun _ h => ⟨h.1, h.2.1, h.2.2.1, h.2.2.2.1 1 ⟨[2]⟩ (.New "point not on curve") rfl rfl⟩)⟩

/-- Listing three keys, the third of which is archived and so is not found: its row ends in three empty columns. -/
theorem ListVRFKeys_failed_lookup_blank_timestamps_witness :
    (demoEnv true).NewApplication { Dialect := (demoEnv true).PostgresWithoutLock }
        = .ok demoStore
      ∧ (demoStore.ListKeys demoWorld.store).1 = .ok [⟨[1]⟩, ⟨[2]⟩, ⟨[3]⟩]
      ∧ (demoStore.GetSpecificKey ⟨[3]⟩
            (stateAfterLookups demoStore ([⟨[1]⟩, ⟨[2]⟩, ⟨[3]⟩].take 2)
              (demoStore.ListKeys demoWorld.store).2)).1 = .error (.New "record not found")
      ∧ ∃ ps : VRFKeyPresenters,
          (ListVRFKeys (demoEnv true) ⟨"", "", false, false⟩ demoWorld).2.rendered
              = demoWorld.rendered ++ [(ps, "🔑 VRF Keys")]
            ∧ ∃ p, ps[2]? = some p
                ∧ p.CreatedAt = none ∧ p.UpdatedAt = none ∧ p.DeletedAt = none
                ∧ p.ToRow (demoEnv true).TimeString
                    = [p.Compressed, p.Uncompressed, p.Hash, "", "", ""]
                ∧ p.RenderTable (demoEnv true).TimeString
                    = (["Compressed", "Uncompressed", "Hash", "Created", "Updated", "Deleted"],
                        [[p.Compressed, p.Uncompressed, p.Hash, "", "", ""]]) :=
  ⟨rfl, rfl, rfl,
    (ListVRFKeys_failed_lookup_blank_timestamps (demoEnv true) ⟨"", "", false, false⟩ demoWorld
      demoStore [⟨[1]⟩, ⟨[2]⟩, ⟨[3]⟩] rfl rfl).imp
      (fun _ h => ⟨h.1, h.2 2 ⟨[3]⟩ (.New "record not found") rfl rfl⟩)⟩

/-- Export of key 4, which has no record, to an occupied path: the wrapped lookup error. -/
theorem ExportVRFKey_lookup_precedes_path_checks_witness :
    "0x04" ≠ ""
      ∧ (demoEnv true).NewPublicKeyFromHex "0x04" = .ok ⟨[4]⟩
      ∧ (demoEnv true).NewApplication demoWorld.Config = .ok demoStore
      ∧ (demoStore.GetSpecificKey ⟨[4]⟩ demoWorld.store).1 = .error (.New "record not found")
      ∧ (ExportVRFKey (demoEnv true) ⟨"0x04", "/tmp/out.json", true, false⟩ demoWorld).1
          = some (.Wrap (.New "record not found")
              ("while retrieving keys with matching public key "
                ++ (demoEnv true).PublicKeyString ⟨[4]⟩)) :=
  ⟨by decide, rfl, rfl, rfl,
    (ExportVRFKey_lookup_precedes_path_checks (demoEnv true)
      ⟨"0x04", "/tmp/out.json", true, false⟩ demoWorld ⟨[4]⟩ demoStore (by decide) rfl rfl).1
      (.New "record not found") rfl⟩

/-- Import of the key file of key 1, which is already stored and is valid JSON: the duplicate error, wrapped. -/
theorem ImportVRFKey_duplicate_key_witness :
    (demoEnv true).getPassword ⟨"", "/tmp/key1.json", true, false⟩ = .ok "pw"
      ∧ "/tmp/key1.json" ≠ ""
      ∧ (demoEnv true).ReadFile demoWorld.fs "/tmp/key1.json" = .ok demoRecord1.VRFKey
      ∧ (demoEnv true).NewApplication demoWorld.Config = .ok demoStore
      ∧ (demoStore.Import demoRecord1.VRFKey "pw" demoWorld.store).1
          = some .MatchingVRFKeyError
      ∧ (demoEnv true).Unmarshal demoRecord1.VRFKey = .ok "0x01"
      ∧ (ImportVRFKey (demoEnv true) ⟨"", "/tmp/key1.json", true, false⟩ demoWorld).1
          = some (.Wrap .MatchingVRFKeyError "while attempting to import key from CL") :=
  ⟨rfl, by decide, rfl, rfl, by decide, rfl,
    ((ImportVRFKey_duplicate_key (demoEnv true) ⟨"", "/tmp/key1.json", true, false⟩ demoWorld
      "pw" demoRecord1.VRFKey demoStore rfl (by decide) rfl rfl (by decide)).2.1 "0x01" rfl).1⟩

/-- Creating key 3, whose hash does not derive: no error, and the diagnostic text is printed in place of the hash. -/
theorem CreateVRFKey_after_create_witness :
    (demoEnv true).getPassword ⟨"", "", false, false⟩ = .ok "pw"
      ∧ (demoEnv true).NewApplication { Dialect := (demoEnv true).PostgresWithoutLock }
          = .ok demoStore
      ∧ (demoStore.CreateKey "pw" demoWorldTwoKeys.store).1 = .ok ⟨[3]⟩
      ∧ (demoEnv true).StringUncompressed ⟨[3]⟩ = .ok "0x04aa"
      ∧ ((demoEnv true).Hash ⟨[3]⟩).2 = some (.New "hash failed")
      ∧ (CreateVRFKey (demoEnv true) ⟨"", "", false, false⟩ demoWorldTwoKeys).1 = none
      ∧ (CreateVRFKey (demoEnv true) ⟨"", "", false, false⟩ demoWorldTwoKeys).2.stdout
          = demoWorldTwoKeys.stdout ++
              [createdKeypairText ((demoEnv true).PublicKeyString ⟨[3]⟩) "0x04aa"
                ("error while computing hash of public key: "
                  ++ (demoEnv true).ErrorString (.New "hash failed"))] :=
  ⟨rfl, rfl, rfl, rfl, rfl,
    ((CreateVRFKey_after_create (demoEnv true) ⟨"", "", false, false⟩ demoWorldTwoKeys "pw"
      demoStore ⟨[3]⟩ rfl rfl rfl).1 "0x04aa" rfl).1,
    ((CreateVRFKey_after_create (demoEnv true) ⟨"", "", false, false⟩ demoWorldTwoKeys "pw"
      demoStore ⟨[3]⟩ rfl rfl rfl).1 "0x04aa" rfl).2.1 (.New "hash failed") rfl⟩

end VRF
